import Mathlib

/-!
Verification of the RLBot controller (`src/bot.py`) against its specification.

The source file `src/bot.py` is embedded shallowly below: Python dataclasses
become Lean structures, methods become Lean functions, machine floats become
rationals, and Python exceptions become `Except PyError`.  The helper modules
`util.sequence`, `util.vec`, `util.drive` and `util.ball_prediction_analysis`
are not part of the given source; the sequencer (`Sequence`, `ControlStep`) is
modelled from the specification's §4.1 contract, while the pure geometric
helpers (`Vec3.dist`, `Vec3.length`, `steer_toward_target`) and the trajectory
oracle (`find_slice_at_time`) are abstracted as function parameters bundled in
`Externals`, since the specification treats them as external collaborators.
-/

namespace RLBot

/-- 3D vector with rational components (models `util.vec.Vec3` data). -/
structure Vec3 where
  x : ℚ
  y : ℚ
  z : ℚ
deriving DecidableEq, Repr

/-- Physics snapshot of an object: position and velocity. -/
structure Physics where
  location : Vec3
  velocity : Vec3
deriving DecidableEq, Repr

/-- Per-car data from the host packet (`PlayerInfo`). -/
structure PlayerInfo where
  physics : Physics
  team : ℕ
deriving DecidableEq, Repr

/-- Ball data from the host packet (`BallInfo`). -/
structure BallInfo where
  physics : Physics
deriving DecidableEq, Repr

/-- Match-clock data from the host packet (`GameInfo`). -/
structure GameInfo where
  seconds_elapsed : ℚ
deriving DecidableEq, Repr

/-- The per-tick host callback payload (`GameTickPacket`). -/
structure GameTickPacket where
  game_cars : List PlayerInfo
  game_ball : BallInfo
  game_info : GameInfo
deriving DecidableEq, Repr

/-- `State` dataclass (bot.py lines 16-22): the things the bot cares about
for decision making.  All five fields are declared without defaults. -/
structure State where
  me : PlayerInfo
  teammates : List PlayerInfo
  enemies : List PlayerInfo
  ball : BallInfo
  seconds_elapsed : ℚ
deriving DecidableEq, Repr

/-- `State.parse_packet` (bot.py lines 24-27).  Its docstring promises to
update all of this State's fields from the given packet; the body assigns
only `ball` and `seconds_elapsed`. -/
def State.parse_packet (self : State) (packet : GameTickPacket) : State :=
  { self with
    ball := packet.game_ball
    seconds_elapsed := packet.game_info.seconds_elapsed }

/-- Python exceptions relevant to this program. -/
inductive PyError where
  | typeError (msg : String)
deriving DecidableEq, Repr

/-- The dataclass-generated constructor of `State`: five required positional
parameters with no defaults.  An argument that was not supplied at the call
site is modelled as `none`; Python raises `TypeError` when any required
argument is missing. -/
def State.dataclass_init (me : Option PlayerInfo) (teammates : Option (List PlayerInfo))
    (enemies : Option (List PlayerInfo)) (ball : Option BallInfo)
    (seconds : Option ℚ) : Except PyError State :=
  match me, teammates, enemies, ball, seconds with
  | some m, some t, some e, some b, some s => .ok ⟨m, t, e, b, s⟩
  | _, _, _, _, _ =>
      .error (.typeError "State.__init__ missing required positional arguments")

/-- `Action` enum (bot.py lines 29-38). -/
inductive Action where
  | WAIT
  | BALLCHASE
  | DEMO
  | SHOOT
  | PASS
  | DEFEND
  | POSITION_DEFENSE
  | POSITION_OFFENSE
  | GET_BOOST
deriving DecidableEq, Repr

/-- `SimpleControllerState`: the per-tick control frame.  Default
construction gives the all-neutral frame, as in the framework. -/
structure SimpleControllerState where
  steer : ℚ := 0
  throttle : ℚ := 0
  pitch : ℚ := 0
  yaw : ℚ := 0
  roll : ℚ := 0
  jump : Bool := false
  boost : Bool := false
  handbrake : Bool := false
deriving DecidableEq, Repr

/-- Modelled from the spec: `ControlStep` from `util.sequence` (not under
src/), a duration paired with the frame to output during it (§3). -/
structure ControlStep where
  duration : ℚ
  controls : SimpleControllerState
deriving DecidableEq, Repr

/-- Modelled from the spec: `Sequence` from `util.sequence` (not under src/):
an ordered list of ControlStep plus mutable cursor state — elapsed time in
the current step, current step index, completion flag (§3). -/
structure Sequence where
  steps : List ControlStep
  index : ℕ
  elapsed : ℚ
  done : Bool
deriving DecidableEq, Repr

/-- Modelled from the spec: `start` resets the cursor to the first step with
zero elapsed time (§4.1). -/
def Sequence.start (steps : List ControlStep) : Sequence :=
  { steps := steps, index := 0, elapsed := 0, done := false }

/-- Modelled from the spec: the step-advance loop of `Sequence.tick` (§4.1),
run on the suffix of steps beginning at the current one.  Returns how many
steps were advanced past, the remaining elapsed time, and the completion
flag.  While elapsed time ≥ the current step's duration the loop subtracts
the duration and moves on, carrying the excess, except at the last step,
where overflow sets the completion flag and the loop stops. -/
def advanceSteps : List ControlStep → ℚ → ℕ × ℚ × Bool
  | [], e => (0, e, true)
  | [s], e => if s.duration ≤ e then (0, e, true) else (0, e, false)
  | s :: s2 :: rest, e =>
      if s.duration ≤ e then
        let r := advanceSteps (s2 :: rest) (e - s.duration)
        (r.1 + 1, r.2.1, r.2.2)
      else (0, e, false)

/-- Modelled from the spec: `Sequence.tick` from `util.sequence` (not under
src/), per the §4.1 contract.  If the sequence is already marked done it
returns NONE; otherwise it adds `delta` to the current step's elapsed time,
runs the step-advance loop, and returns the frame of whichever step the
cursor lands on (so the completing tick still returns the last step's
frame).  The mutated cursor state is returned alongside. -/
def Sequence.tick (seq : Sequence) (delta : ℚ) : Option SimpleControllerState × Sequence :=
  if seq.done then (none, seq)
  else
    let e := seq.elapsed + delta
    let r := advanceSteps (seq.steps.drop seq.index) e
    let seq2 : Sequence := { steps := seq.steps, index := seq.index + r.1,
                             elapsed := r.2.1, done := r.2.2 }
    (((seq.steps.drop seq2.index).head?).map ControlStep.controls, seq2)

/-- Quick-chat selections used by the bot. -/
inductive QuickChatSelection where
  | Information_IGotIt
deriving DecidableEq, Repr

/-- Externally visible side effects emitted by handlers, in temporal order. -/
inductive Effect where
  | send_quick_chat (team_only : Bool) (quick_chat : QuickChatSelection)
  | set_active_sequence (steps : List ControlStep)
deriving DecidableEq, Repr

/-- The external pure helpers the bot imports, bundled as parameters:
`Vec3.dist` and `Vec3.length` from `util.vec`, `steer_toward_target` from
`util.drive`, and the composition of `get_ball_prediction_struct` with
`find_slice_at_time` as the trajectory oracle, mapping a query time to a
predicted ball location or `none` when prediction is unavailable. -/
structure Externals where
  dist : Vec3 → Vec3 → ℚ
  length : Vec3 → ℚ
  steer_toward_target : PlayerInfo → Vec3 → ℚ
  oracle : ℚ → Option Vec3

/-- Result of running one action handler: the frame it returns, the fresh
sequence it installed into `self.active_sequence` (if any), the side effects
it emitted in order, whether the trajectory oracle was queried, and the
`target_location` local it computed (if any). -/
structure HandlerResult where
  controls : Option SimpleControllerState
  active_sequence : Option Sequence := none
  effects : List Effect := []
  oracle_queried : Bool := false
  target_location : Option Vec3 := none
deriving DecidableEq, Repr

/-- The canned flip sequence built in `front_flip` (bot.py lines 114-119). -/
def flip_steps : List ControlStep :=
  [ { duration := 5/100, controls := { jump := true, throttle := 1 } },
    { duration := 5/100, controls := { jump := false, throttle := 1 } },
    { duration := 2/10, controls := { jump := true, pitch := -1, throttle := 1 } },
    { duration := 8/10, controls := { throttle := 1 } } ]

/-- `MyBot.front_flip` (bot.py lines 108-122): sends the quick chat, installs
the canned flip sequence as the active sequence, and returns the controls
from ticking the fresh sequence.  The in-tick call advances zero time, since
the sequence was started within the same tick callback. -/
def front_flip : HandlerResult :=
  let seq := Sequence.start flip_steps
  let r := seq.tick 0
  { controls := r.1
    active_sequence := some r.2
    effects := [ .send_quick_chat false .Information_IGotIt,
                 .set_active_sequence flip_steps ] }

/-- `MyBot.move_to_target` (bot.py lines 124-130). -/
def move_to_target (ext : Externals) (st : State) (target : Vec3) : SimpleControllerState :=
  { steer := ext.steer_toward_target st.me target
    throttle := 1
    boost := true }

/-- The maneuver-trigger gate of `ballchase` (bot.py line 154): the Python
chained comparison `750 < my_velocity.length() < 800`. -/
def maneuver_gate (speed : ℚ) : Prop :=
  750 < speed ∧ speed < 800

instance (speed : ℚ) : Decidable (maneuver_gate speed) := by
  unfold maneuver_gate; infer_instance

/-- `MyBot.ballchase` (bot.py lines 138-158): computes the aim point (current
ball position; if farther than 1500 from the ball, the oracle's prediction at
now + 2 seconds when available), then either front-flips when the speed gate
fires or steers toward the aim point. -/
def ballchase (ext : Externals) (st : State) : HandlerResult :=
  let my_location := st.me.physics.location
  let my_velocity := st.me.physics.velocity
  let ball_location := st.ball.physics.location
  let tq : Vec3 × Bool :=
    if ext.dist my_location ball_location > 1500 then
      match ext.oracle (st.seconds_elapsed + 2) with
      | some p => (p, true)
      | none => (ball_location, true)
    else (ball_location, false)
  if maneuver_gate (ext.length my_velocity) then
    { front_flip with oracle_queried := tq.2, target_location := some tq.1 }
  else
    { controls := some (move_to_target ext st tq.1)
      oracle_queried := tq.2
      target_location := some tq.1 }

/-- `MyBot.decide` (bot.py lines 132-133): the constant placeholder policy. -/
def decide : Action := Action.BALLCHASE

/-- `MyBot.demo` as a Python callable (bot.py lines 163-164): one required
positional parameter `player` besides `self`.  The argument list actually
supplied at a call site is passed explicitly; Python raises `TypeError` when
it is missing. -/
def demo_call (args : List (Option PlayerInfo)) : Except PyError SimpleControllerState :=
  match args with
  | [_player] => .ok {}
  | _ => .error (.typeError "demo missing 1 required positional argument: player")

/-- `MyBot.pass_to_player` as a Python callable (bot.py lines 160-161). -/
def pass_to_player_call (args : List (Option PlayerInfo)) : Except PyError SimpleControllerState :=
  match args with
  | [_player] => .ok {}
  | _ => .error (.typeError "pass_to_player missing 1 required positional argument: player")

/-- The `match self.action` dispatch block of `get_output` (bot.py lines
87-97), with each handler invoked exactly as at its call site: `demo` with no
argument, `pass_to_player` with `None`. -/
def dispatch (ext : Externals) (st : State) : Action → Except PyError HandlerResult
  | .WAIT => .ok { controls := some {} }
  | .BALLCHASE => .ok (ballchase ext st)
  | .DEMO => do
      let c ← demo_call []
      .ok { controls := some c }
  | .SHOOT => .ok { controls := some {} }
  | .PASS => do
      let c ← pass_to_player_call [none]
      .ok { controls := some c }
  | .DEFEND => .ok { controls := some {} }
  | .POSITION_DEFENSE => .ok { controls := some {} }
  | .POSITION_OFFENSE => .ok { controls := some {} }
  | .GET_BOOST => .ok { controls := some {} }

/-- The mutable fields of `MyBot` that the per-tick logic touches. -/
structure MyBot where
  active_sequence : Option Sequence
  state : State
  action : Option Action
deriving DecidableEq, Repr

/-- `MyBot.__init__` (bot.py lines 54-61): after the base-class constructor,
line 58 evaluates `State()` — the dataclass constructor with no arguments. -/
def MyBot.dataclass_init (_na : String) (_team : ℤ) (_index : ℤ) : Except PyError MyBot := do
  let st ← State.dataclass_init none none none none none
  .ok { active_sequence := none, state := st, action := none }

/-- The outcome of one `get_output` tick: the returned controls, the bot's
mutated fields, which action (if any) was dispatched, and the effects
emitted. -/
structure Output where
  controls : Option SimpleControllerState
  bot : MyBot
  dispatched : Option Action
  effects : List Effect
deriving DecidableEq, Repr

/-- The decide-and-dispatch tail of `get_output` (bot.py lines 85-97), given
the active sequence as left by the polling step.  A handler that installs a
fresh sequence replaces it; otherwise it is kept (the code never clears the
field). -/
def dispatchPath (ext : Externals) (seq : Option Sequence) (st : State) :
    Except PyError Output := do
  let a := decide
  let hr ← dispatch ext st a
  .ok { controls := hr.controls
        bot := { active_sequence := hr.active_sequence.orElse (fun _ => seq),
                 state := st, action := some a }
        dispatched := some a
        effects := hr.effects }

/-- `MyBot.get_output` (bot.py lines 67-97): parses the packet into the
state, polls the active sequence first — if one exists, is not done, and its
tick yields controls, those controls are returned and nothing else runs —
and otherwise decides and dispatches an action.  `delta` is the real time
advanced by this tick. -/
def get_output (ext : Externals) (bot : MyBot) (packet : GameTickPacket) (delta : ℚ) :
    Except PyError Output :=
  let st := bot.state.parse_packet packet
  match bot.active_sequence with
  | some seq =>
      if seq.done then dispatchPath ext (some seq) st
      else
        match seq.tick delta with
        | (some controls, seq2) =>
            .ok { controls := some controls
                  bot := { active_sequence := some seq2, state := st, action := bot.action }
                  dispatched := none
                  effects := [] }
        | (none, seq2) => dispatchPath ext (some seq2) st
  | none => dispatchPath ext none st

/-! ### Concrete fixtures used by witnesses and counterexamples -/

/-- The zero vector. -/
def vZero : Vec3 := ⟨0, 0, 0⟩

/-- A car at rest at the origin. -/
def player0 : PlayerInfo := ⟨⟨vZero, vZero⟩, 0⟩

/-- A ball at rest at the origin. -/
def ball0 : BallInfo := ⟨⟨vZero, vZero⟩⟩

/-- A concrete state: our car and the ball at the origin at time 0. -/
def st0 : State := ⟨player0, [], [], ball0, 0⟩

/-- External helpers reporting distance 0, the given constant speed, steering
angle 0, and an unavailable oracle. -/
def extConst (speed : ℚ) : Externals :=
  ⟨fun _ _ => 0, fun _ => speed, fun _ _ => 0, fun _ => none⟩

/-- External helpers reporting distance 2000 (beyond the 1500 threshold),
speed 0, steering angle 0, and an unavailable oracle. -/
def extFar : Externals :=
  ⟨fun _ _ => 2000, fun _ => 0, fun _ _ => 0, fun _ => none⟩

/-- A packet that moves the only car to a new place, the ball to (7,8,9),
and the clock to 42. -/
def packetMoved : GameTickPacket :=
  ⟨[⟨⟨⟨1, 2, 3⟩, ⟨4, 5, 6⟩⟩, 0⟩], ⟨⟨⟨7, 8, 9⟩, vZero⟩⟩, ⟨42⟩⟩

/-- A trivial packet: no cars, ball at origin, time 0. -/
def packet0 : GameTickPacket := ⟨[], ball0, ⟨0⟩⟩

/-- A bot holding a freshly started flip sequence. -/
def bot0 : MyBot := ⟨some (Sequence.start flip_steps), st0, none⟩

/-! ### C1 — speed-gate boundary -/

/-- C1 counterexample: at a vehicle speed of exactly 750 the maneuver gate
does not fire — `ballchase` installs no flip sequence and emits no effects,
refuting the claimed inclusive lower bound. -/
theorem speed750_does_not_trigger :
    (ballchase (extConst 750) st0).active_sequence = none ∧
    (ballchase (extConst 750) st0).effects = [] := by
  decide

/-- C1 (amended): the maneuver gate of the CHASE_BALL handler fires — that
is, `ballchase` installs a flip sequence — exactly when the vehicle speed
lies strictly between 750 and 800; both bounds are exclusive, so neither a
speed of exactly 750 nor one of exactly 800 triggers the maneuver. -/
theorem flip_trigger_strict_band (ext : Externals) (st : State) :
    (ballchase ext st).active_sequence.isSome = true ↔
      750 < ext.length st.me.physics.velocity ∧
        ext.length st.me.physics.velocity < 800 := by
  by_cases hg : maneuver_gate (ext.length st.me.physics.velocity)
  · simp only [ballchase, if_pos hg, front_flip]
    simpa using hg
  · simp only [ballchase, if_neg hg]
    simp only [maneuver_gate, not_and, not_lt] at hg
    simpa using hg

/-! ### C2 — dispatch totality -/

/-- C2: dispatching `Action.DEMO` does not return a ControlFrame — the call
site `self.demo()` supplies no argument to a handler with a required
`player` parameter, so a `TypeError` is raised, for every snapshot. -/
theorem dispatch_demo_raises (ext : Externals) (st : State) :
    dispatch ext st Action.DEMO =
      .error (.typeError "demo missing 1 required positional argument: player") := rfl

/-! ### C3 — snapshot rebuild on parse -/

/-- C3: `parse_packet` does not rebuild the snapshot wholesale — on a packet
that moves the car, the `me` field keeps its stale value and matches no car
of the packet, while `ball` and `seconds_elapsed` do get the packet's
values; `teammates` and `enemies` are likewise carried over unchanged. -/
theorem parse_packet_keeps_stale_me :
    (st0.parse_packet packetMoved).me = st0.me ∧
    (st0.parse_packet packetMoved).me ∉ packetMoved.game_cars ∧
    (st0.parse_packet packetMoved).teammates = st0.teammates ∧
    (st0.parse_packet packetMoved).enemies = st0.enemies ∧
    (st0.parse_packet packetMoved).ball = packetMoved.game_ball ∧
    (st0.parse_packet packetMoved).seconds_elapsed = packetMoved.game_info.seconds_elapsed := by
  decide

/-! ### C9 — constructor always raises -/

/-- C9: for every name, team and index, `MyBot.__init__` raises `TypeError`,
because line 58 evaluates `State()` while the `State` dataclass has five
required fields without defaults. -/
theorem mybot_constructor_raises (na : String) (team index : ℤ) :
    MyBot.dataclass_init na team index =
      .error (.typeError "State.__init__ missing required positional arguments") := rfl

/-! ### C4 — oracle-unavailable fallback -/

/-- C4: when the vehicle is farther than 1500 from the ball and the oracle
has no slice at now + 2 seconds, dispatching BALLCHASE succeeds (no error is
produced or propagated) and the aim point is the ball's current position. -/
theorem oracle_unavailable_fallback (ext : Externals) (st : State)
    (hfar : ext.dist st.me.physics.location st.ball.physics.location > 1500)
    (hor : ext.oracle (st.seconds_elapsed + 2) = none) :
    dispatch ext st Action.BALLCHASE = .ok (ballchase ext st) ∧
    (ballchase ext st).target_location = some st.ball.physics.location := by
  refine ⟨rfl, ?_⟩
  by_cases hg : maneuver_gate (ext.length st.me.physics.velocity) <;>
    simp [ballchase, if_pos hfar, hor, hg, front_flip]

/-- C4 witness: a concrete far-from-ball snapshot with an unavailable
oracle. -/
theorem oracle_unavailable_fallback_witness :
    dispatch extFar st0 Action.BALLCHASE = .ok (ballchase extFar st0) ∧
    (ballchase extFar st0).target_location = some st0.ball.physics.location :=
  oracle_unavailable_fallback extFar st0 (by norm_num [extFar]) rfl

/-! ### C5 — near-ball aim point, oracle unqueried -/

/-- C5: whenever the distance from vehicle to ball is at most 1500, the aim
point is the ball's current position — for every oracle, since the oracle is
not queried at all on that tick. -/
theorem near_ball_aim_is_ball (ext : Externals) (st : State)
    (h : ext.dist st.me.physics.location st.ball.physics.location ≤ 1500) :
    (ballchase ext st).target_location = some st.ball.physics.location ∧
    (ballchase ext st).oracle_queried = false := by
  have hn : ¬ ext.dist st.me.physics.location st.ball.physics.location > 1500 :=
    not_lt.mpr h
  by_cases hg : maneuver_gate (ext.length st.me.physics.velocity) <;>
    simp [ballchase, if_neg hn, hg, front_flip]

/-- C5 witness: a concrete snapshot at distance 0 from the ball. -/
theorem near_ball_aim_is_ball_witness :
    (ballchase (extConst 0) st0).target_location = some st0.ball.physics.location ∧
    (ballchase (extConst 0) st0).oracle_queried = false :=
  near_ball_aim_is_ball (extConst 0) st0 (by norm_num [extConst])

/-! ### C10 — quick chat on every trigger -/

/-- C10: every time the maneuver gate fires, the flip handler's effect trace
is the outward quick chat (team_only = false, I-got-it) followed by the
installation of the flip sequence — the broadcast precedes the sequence
start and is emitted on every trigger. -/
theorem flip_chat_emitted_first (ext : Externals) (st : State)
    (hg : maneuver_gate (ext.length st.me.physics.velocity)) :
    (ballchase ext st).effects =
      [ Effect.send_quick_chat false QuickChatSelection.Information_IGotIt,
        Effect.set_active_sequence flip_steps ] := by
  simp [ballchase, hg, front_flip]

/-- C10 witness: a concrete snapshot at speed 775, inside the band. -/
theorem flip_chat_emitted_first_witness :
    (ballchase (extConst 775) st0).effects =
      [ Effect.send_quick_chat false QuickChatSelection.Information_IGotIt,
        Effect.set_active_sequence flip_steps ] :=
  flip_chat_emitted_first (extConst 775) st0 (by constructor <;> norm_num [extConst])

/-! ### C6 — active sequence is the sole output source -/

/-- C6: the bot holds a single `Option Sequence` (so at most one sequence is
active), and on a tick where an active sequence exists, is not done, and its
tick yields a frame, `get_output` returns exactly that frame: no action is
dispatched, no effects are emitted, and only the sequence cursor and the
parsed state change. -/
theorem active_sequence_preempts (ext : Externals) (bot : MyBot)
    (packet : GameTickPacket) (delta : ℚ) (seq seq2 : Sequence)
    (c : SimpleControllerState)
    (h1 : bot.active_sequence = some seq) (h2 : seq.done = false)
    (h3 : seq.tick delta = (some c, seq2)) :
    get_output ext bot packet delta =
      .ok { controls := some c
            bot := { active_sequence := some seq2,
                     state := bot.state.parse_packet packet,
                     action := bot.action }
            dispatched := none
            effects := [] } := by
  simp [get_output, h1, h2, h3]

/-- C6 witness: a bot holding a fresh flip sequence, ticked by 0.01, outputs
the first step's frame and dispatches nothing. -/
theorem active_sequence_preempts_witness :
    get_output (extConst 0) bot0 packet0 (1/100) =
      .ok { controls := some { jump := true, throttle := 1 }
            bot := { active_sequence :=
                       some { steps := flip_steps, index := 0,
                              elapsed := 1/100, done := false },
                     state := st0.parse_packet packet0,
                     action := none }
            dispatched := none
            effects := [] } :=
  active_sequence_preempts (extConst 0) bot0 packet0 (1/100)
    (Sequence.start flip_steps)
    { steps := flip_steps, index := 0, elapsed := 1/100, done := false }
    { jump := true, throttle := 1 } rfl rfl
    (by norm_num [Sequence.tick, Sequence.start, advanceSteps, flip_steps])

/-! ### C7 — flip on gate, steer otherwise -/

/-- C7: when the maneuver gate fires, `ballchase` installs the canned flip
sequence — exactly the four ordered steps (jump, throttle 1, 0.05s), (no
jump, throttle 1, 0.05s), (jump with pitch -1, throttle 1, 0.20s),
(throttle 1, 0.80s), totalling 1.10s — freshly started, and returns that
sequence's first frame; otherwise it returns a direct steering frame toward
the aim point with throttle 1 and boost engaged and installs nothing. -/
theorem ballchase_flip_or_steer (ext : Externals) (st : State) :
    (maneuver_gate (ext.length st.me.physics.velocity) →
      flip_steps =
        [ { duration := 5/100, controls := { jump := true, throttle := 1 } },
          { duration := 5/100, controls := { jump := false, throttle := 1 } },
          { duration := 2/10, controls := { jump := true, pitch := -1, throttle := 1 } },
          { duration := 8/10, controls := { throttle := 1 } } ] ∧
      (flip_steps.map ControlStep.duration).sum = 11/10 ∧
      (ballchase ext st).active_sequence =
        some { steps := flip_steps, index := 0, elapsed := 0, done := false } ∧
      (ballchase ext st).controls = some { jump := true, throttle := 1 }) ∧
    (¬ maneuver_gate (ext.length st.me.physics.velocity) →
      (ballchase ext st).active_sequence = none ∧
      ∃ t, (ballchase ext st).target_location = some t ∧
        (ballchase ext st).controls =
          some { steer := ext.steer_toward_target st.me t,
                 throttle := 1, boost := true }) := by
  constructor
  · intro hg
    refine ⟨rfl, by norm_num [flip_steps], ?_, ?_⟩ <;>
      norm_num [ballchase, hg, front_flip, Sequence.tick, Sequence.start,
                advanceSteps, flip_steps]
  · intro hg
    refine ⟨?_, ?_⟩
    · simp [ballchase, hg]
    · simp only [ballchase, if_neg hg]
      exact ⟨_, rfl, rfl⟩

/-- C7 witness: at speed 775 the flip sequence is installed and its first
frame returned; at speed 0 a steering frame toward the ball is returned. -/
theorem ballchase_flip_or_steer_witness :
    (ballchase (extConst 775) st0).controls = some { jump := true, throttle := 1 } ∧
    (ballchase (extConst 775) st0).active_sequence =
      some { steps := flip_steps, index := 0, elapsed := 0, done := false } ∧
    (ballchase (extConst 0) st0).controls =
      some { steer := 0, throttle := 1, boost := true } := by
  have hflip := (ballchase_flip_or_steer (extConst 775) st0).1
    (by constructor <;> norm_num [extConst])
  have hsteer := (ballchase_flip_or_steer (extConst 0) st0).2
    (by simp [maneuver_gate, extConst])
  refine ⟨hflip.2.2.2, hflip.2.2.1, ?_⟩
  obtain ⟨_, t, _, hc⟩ := hsteer
  exact hc

/-! ### C8 — sequencer tick semantics -/

/-- C8: ticking the freshly started flip sequence (durations 0.05, 0.05,
0.20, 0.80) by any non-negative `d` adds `d` to the elapsed time and, while
the elapsed time reaches the current step's duration, subtracts it and
advances carrying the excess — so a single large delta may skip several
steps; the cursor lands on the step determined by the cumulative durations,
that step's frame is returned, and past the 1.10s total the sequence is
marked done while the last step's frame is returned once more, after which
every subsequent tick returns NONE. -/
theorem flip_sequence_tick_semantics (d : ℚ) (h0 : 0 ≤ d) :
    (d < 5/100 →
      (Sequence.start flip_steps).tick d =
        (some { jump := true, throttle := 1 },
         { steps := flip_steps, index := 0, elapsed := d, done := false })) ∧
    (5/100 ≤ d → d < 1/10 →
      (Sequence.start flip_steps).tick d =
        (some { jump := false, throttle := 1 },
         { steps := flip_steps, index := 1, elapsed := d - 5/100, done := false })) ∧
    (1/10 ≤ d → d < 3/10 →
      (Sequence.start flip_steps).tick d =
        (some { jump := true, pitch := -1, throttle := 1 },
         { steps := flip_steps, index := 2, elapsed := d - 1/10, done := false })) ∧
    (3/10 ≤ d → d < 11/10 →
      (Sequence.start flip_steps).tick d =
        (some { throttle := 1 },
         { steps := flip_steps, index := 3, elapsed := d - 3/10, done := false })) ∧
    (11/10 ≤ d →
      (Sequence.start flip_steps).tick d =
        (some { throttle := 1 },
         { steps := flip_steps, index := 3, elapsed := d - 3/10, done := true }) ∧
      ∀ d2 : ℚ,
        Sequence.tick
            { steps := flip_steps, index := 3, elapsed := d - 3/10, done := true } d2 =
          (none,
           { steps := flip_steps, index := 3, elapsed := d - 3/10, done := true })) := by
  refine ⟨?_, ?_, ?_, ?_, ?_⟩
  · intro h1
    have e1 : ¬ (5/100 : ℚ) ≤ d := by linarith
    simp [Sequence.tick, Sequence.start, advanceSteps, flip_steps, e1]
  · intro h1 h2
    have e2 : ¬ (5/100 : ℚ) ≤ d - 5/100 := by linarith
    simp [Sequence.tick, Sequence.start, advanceSteps, flip_steps, h1, e2]
  · intro h1 h2
    have e1 : (5/100 : ℚ) ≤ d := by linarith
    have e2 : (5/100 : ℚ) ≤ d - 5/100 := by linarith
    have e3 : ¬ (2/10 : ℚ) ≤ d - 5/100 - 5/100 := by linarith
    simp [Sequence.tick, Sequence.start, advanceSteps, flip_steps, e1, e2, e3]
    ring_nf
  · intro h1 h2
    have e1 : (5/100 : ℚ) ≤ d := by linarith
    have e2 : (5/100 : ℚ) ≤ d - 5/100 := by linarith
    have e3 : (2/10 : ℚ) ≤ d - 5/100 - 5/100 := by linarith
    have e4 : ¬ (8/10 : ℚ) ≤ d - 5/100 - 5/100 - 2/10 := by linarith
    simp [Sequence.tick, Sequence.start, advanceSteps, flip_steps, e1, e2, e3, e4]
    ring_nf
  · intro h1
    have e1 : (5/100 : ℚ) ≤ d := by linarith
    have e2 : (5/100 : ℚ) ≤ d - 5/100 := by linarith
    have e3 : (2/10 : ℚ) ≤ d - 5/100 - 5/100 := by linarith
    have e4 : (8/10 : ℚ) ≤ d - 5/100 - 5/100 - 2/10 := by linarith
    constructor
    · simp [Sequence.tick, Sequence.start, advanceSteps, flip_steps, e1, e2, e3, e4]
      ring_nf
    · intro d2
      simp [Sequence.tick]

/-- C8 witness: a fresh flip sequence ticked once by 1.5 returns the last
step's frame and is done; the immediately following tick returns NONE. -/
theorem flip_sequence_tick_semantics_witness :
    (Sequence.start flip_steps).tick (3/2) =
      (some { throttle := 1 },
       { steps := flip_steps, index := 3, elapsed := 3/2 - 3/10, done := true }) ∧
    Sequence.tick
        { steps := flip_steps, index := 3, elapsed := 3/2 - 3/10, done := true } (1/100) =
      (none,
       { steps := flip_steps, index := 3, elapsed := 3/2 - 3/10, done := true }) := by
  have h := (flip_sequence_tick_semantics (3/2) (by norm_num)).2.2.2.2 (by norm_num)
  exact ⟨h.1, h.2 (1/100)⟩

end RLBot
